import Mathlib

/-!
Verification of the monopile mapping dashboard's core data logic.

The definitions below are a shallow embedding of the data-handling code of
the repository: `src/utils/dataUtils.ts` (parsing, search filtering, manual
coordinate placement, linking), `src/utils/mapUtils.ts` (monopile/GeoJSON
layer management and id filtering) and the linking handlers of
`src/pages/Index.tsx`.  JavaScript scalar values are modelled by `Value`
(numbers as integers), JavaScript objects by ordered association lists with
literal/spread update semantics, and the external collaborators (PapaParse,
the XLSX reader, `JSON.parse`, and the MapLibre widget) by total executable
models of the behavior this code relies on.
-/

namespace MonopileApp

/-- A JavaScript scalar value: `undefined`, `null`, booleans, numbers
(modelled as integers) and strings. -/
inductive Value where
  | undef
  | null
  | bool (b : Bool)
  | num (n : Int)
  | str (s : String)
deriving DecidableEq, Repr

/-- JavaScript truthiness: `undefined`, `null`, `false`, `0` and `""` are
falsy, everything else is truthy. -/
def truthy : Value → Bool
  | .undef => false
  | .null => false
  | .bool b => b
  | .num n => n != 0
  | .str s => s != ""

/-- ASCII lower-casing of one character (models
`String.prototype.toLowerCase` far enough for this code). -/
def lowerChar (c : Char) : Char :=
  if 'A' ≤ c ∧ c ≤ 'Z' then Char.ofNat (c.toNat + 32) else c

/-- ASCII lower-casing of a string. -/
def lowerStr (s : String) : String := ⟨s.data.map lowerChar⟩

/-- Splits a character list at every occurrence of `sep` (models
`String.prototype.split` with a single-character separator). -/
def splitCharsAux (sep : Char) : List Char → List Char → List (List Char)
  | [], acc => [acc.reverse]
  | c :: rest, acc =>
    if c = sep then acc.reverse :: splitCharsAux sep rest []
    else splitCharsAux sep rest (c :: acc)

/-- `jsSplit s sep` models `s.split(sep)`. -/
def jsSplit (s : String) (sep : Char) : List String :=
  (splitCharsAux sep s.data []).map (fun l => ⟨l⟩)

/-- Boolean prefix test on character lists. -/
def isPrefixCh : List Char → List Char → Bool
  | [], _ => true
  | _ :: _, [] => false
  | a :: as, b :: bs => a == b && isPrefixCh as bs

/-- Boolean substring test on character lists. -/
def containsCh (needle : List Char) : List Char → Bool
  | [] => needle.isEmpty
  | c :: rest => isPrefixCh needle (c :: rest) || containsCh needle rest

/-- `jsIncludes hay needle` models `hay.includes(needle)`. -/
def jsIncludes (hay needle : String) : Bool := containsCh needle.data hay.data

/-- Decimal digit printing helper (fuel-driven so that it reduces in the
kernel). -/
def natDigitsAux : Nat → Nat → List Char → List Char
  | 0, _, acc => acc
  | fuel + 1, n, acc =>
    let d := Char.ofNat (48 + n % 10)
    if n < 10 then d :: acc else natDigitsAux fuel (n / 10) (d :: acc)

/-- Decimal representation of a natural number. -/
def natStr (n : Nat) : String := ⟨natDigitsAux (n + 1) n []⟩

/-- Decimal representation of an integer. -/
def intStr (n : Int) : String :=
  if n < 0 then "-" ++ natStr n.natAbs else natStr n.natAbs

/-- The JavaScript `String(v)` coercion used by the search filter. -/
def jsString : Value → String
  | .undef => "undefined"
  | .null => "null"
  | .bool b => if b then "true" else "false"
  | .num n => intStr n
  | .str s => s

/-- A JavaScript object as an ordered association list from property name
to value (a `Monopile` record is such an object). -/
abbrev Obj := List (String × Value)

/-- Property access `o[k]`: the stored value, or `undefined` when the
property is absent. -/
def getProp (o : Obj) (k : String) : Value :=
  (o.lookup k).getD Value.undef

/-- Property assignment with object-literal semantics: an existing key is
overwritten in place (keeping its position), a new key is appended. -/
def objSet (o : Obj) (k : String) (v : Value) : Obj :=
  if (o.lookup k).isSome then
    o.map (fun p => if p.1 = k then (k, v) else p)
  else o ++ [(k, v)]

/-- Object spread `{...o, ...src}`: every property of `src` is assigned
onto `o` in order. -/
def objSpread (o : Obj) (src : Obj) : Obj :=
  src.foldl (fun acc p => objSet acc p.1 p.2) o

/-- `Object.keys`, in insertion order. -/
def objKeys (o : Obj) : List String := o.map Prod.fst

/-! ## dataUtils.ts: search filtering, manual placement, linking -/

/-- One record's match test inside `filterMonopiles`
(`src/utils/dataUtils.ts` lines 97-111): the id column's value, or any
other column's value, coerced with `String(...)`, lower-cased, contains
the lower-cased query as a substring. -/
def monopileMatches (m : Obj) (lowerQuery : String) (idColumnKey : String) : Bool :=
  (idColumnKey != "" && jsIncludes (lowerStr (jsString (getProp m idColumnKey))) lowerQuery)
    || (objKeys m).any (fun key => jsIncludes (lowerStr (jsString (getProp m key))) lowerQuery)

/-- `filterMonopiles` (`src/utils/dataUtils.ts` lines 89-112): an empty
query returns the input list, otherwise keep the records matching the
query. -/
def filterMonopiles (monopiles : List Obj) (query : String) (idColumnKey : String) : List Obj :=
  if query = "" then monopiles
  else
    let lowerQuery := lowerStr query
    monopiles.filter (fun m => monopileMatches m lowerQuery idColumnKey)

/-- `updateMonopileCoordinates` (`src/utils/dataUtils.ts` lines 117-130):
map over the records, replacing `lat`/`lng` on each record whose id-column
value is strictly equal to the given id string. -/
def updateMonopileCoordinates (monopiles : List Obj) (idColumnKey : String)
    (id : String) (lat lng : Int) : List Obj :=
  monopiles.map (fun monopile =>
    if getProp monopile idColumnKey = Value.str id then
      objSet (objSet monopile "lat" (.num lat)) "lng" (.num lng)
    else monopile)

/-- The coordinate-merging step of `handleGeoJsonIdColumnSelect` /
`handleIdColumnSelect` (`src/pages/Index.tsx` lines 151-168 and 181-198):
for each table row, `monopiles.find(...)` looks up the first linked point
whose id-column value is strictly equal to the row's, and a matching row
is rebuilt as `{...row, lat: match.lat, lng: match.lng}`. -/
def mergeCoordinates (rows : List Obj) (monopiles : List Obj) (columnKey : String) : List Obj :=
  rows.map (fun row =>
    match monopiles.find? (fun m => getProp m columnKey = getProp row columnKey) with
    | some mtch => objSet (objSet row "lat" (getProp mtch "lat")) "lng" (getProp mtch "lng")
    | none => row)

/-! ## dataUtils.ts: tabular parsing -/

/-- One-pass RFC4180-ish CSV record/field scanner; models the parsing done
by the external PapaParse library (quoted fields, doubled quotes, comma
separator, LF records with CR tolerated). -/
def csvAux : Nat → List Char → Bool → List Char → List String → List (List String) → List (List String)
  | _, [], _, field, row, rows => (((⟨field.reverse⟩ : String) :: row).reverse :: rows).reverse
  | 0, _ :: _, _, field, row, rows => (((⟨field.reverse⟩ : String) :: row).reverse :: rows).reverse
  | fuel + 1, c :: rest, true, field, row, rows =>
    if c = '"' then
      match rest with
      | '"' :: rest2 => csvAux fuel rest2 true ('"' :: field) row rows
      | _ => csvAux fuel rest false field row rows
    else csvAux fuel rest true (c :: field) row rows
  | fuel + 1, c :: rest, false, field, row, rows =>
    if c = '"' then csvAux fuel rest true field row rows
    else if c = ',' then csvAux fuel rest false [] ((⟨field.reverse⟩ : String) :: row) rows
    else if c = '\n' then csvAux fuel rest false [] [] (((⟨field.reverse⟩ : String) :: row).reverse :: rows)
    else if c = '\r' then csvAux fuel rest false field row rows
    else csvAux fuel rest false (c :: field) row rows

/-- Splits CSV text into records of fields (fuel-driven so that it reduces
in the kernel; the fuel covers the whole input). -/
def csvParseRows (content : String) : List (List String) :=
  csvAux content.data.length content.data false [] [] []

/-- Zips a header onto one record's fields, producing one object per data
row (extra fields beyond the header are dropped, missing ones absent, as
with PapaParse `header: true`). -/
def zipObj : List String → List String → Obj
  | [], _ => []
  | _, [] => []
  | k :: ks, v :: vs => (k, .str v) :: zipObj ks vs

/-- Models `Papa.parse(file, \x7bheader: true\x7d)` as used by
`parseFileData`: the first record is the header, each later record becomes
one object keyed by the header strings; the `complete` callback always
fires, so this function is total. -/
def papaParseHeader (content : String) : List Obj :=
  match csvParseRows content with
  | [] => []
  | header :: dataRows => dataRows.map (fun r => zipObj header r)

/-- Decimal digit lookup. -/
def decDigit? (c : Char) : Option Nat :=
  if '0' ≤ c ∧ c ≤ '9' then some (c.toNat - 48) else none

/-- Parses a non-empty all-digit character list. -/
def natOfDigits? : List Char → Option Nat
  | [] => none
  | ds => ds.foldl (fun acc c => do
      let a ← acc
      let d ← decDigit? c
      pure (a * 10 + d)) (some 0)

/-- Parses an optionally signed integer literal. -/
def intOfString? (s : String) : Option Int :=
  match s.data with
  | '-' :: ds => (natOfDigits? ds).map (fun n => -(n : Int))
  | ds => (natOfDigits? ds).map (fun n => (n : Int))

/-- A workbook cell as `sheet_to_json` yields it: numeric-looking cells
become native numbers, everything else stays a string. -/
def cellValue (s : String) : Value :=
  match intOfString? s with
  | some n => .num n
  | none => .str s

/-- Models `XLSX.read` + `XLSX.utils.sheet_to_json` of the external xlsx
library as used by `parseFileData`: first sheet only, first row as header,
numeric cells preserved as numbers (spec section 4.1); the opaque workbook
bytes are modelled as delimited text of that sheet. -/
def xlsxSheetToJson (content : String) : List Obj :=
  match csvParseRows content with
  | [] => []
  | header :: dataRows =>
    dataRows.map (fun r =>
      (zipObj header r).map (fun p => (p.1, match p.2 with
        | .str s => cellValue s
        | v => v)))

/-- The error thrown by `parseFileData` on an unrecognized extension
(`throw new Error('Unsupported file format')`), the spec's
`UnsupportedFormatError`. -/
inductive FileError where
  | unsupportedFormat
deriving DecidableEq, Repr

/-- A `(value, label)` column option. -/
structure ColumnOption where
  value : String
  label : String
deriving DecidableEq, Repr

/-- The `TableData` shape of `dataUtils.ts`. -/
structure TableData where
  columns : List ColumnOption
  rows : List Obj
  idColumnKey : Option String
deriving DecidableEq, Repr

/-- `file.name.split('.').pop()?.toLowerCase()`: the lower-cased segment
after the last dot (the whole name when there is no dot). -/
def fileExtOf (name : String) : String :=
  lowerStr ((jsSplit name '.').getLastD "")

/-- `Object.keys(results.data[0] || \x7b\x7d).map(key => (\x7bvalue: key,
label: key\x7d))`: columns derived from the key set of the first parsed
row. -/
def columnsOfRows (rows : List Obj) : List ColumnOption :=
  (objKeys (rows.headD [])).map (fun k => ⟨k, k⟩)

/-- `parseFileData` (`src/utils/dataUtils.ts` lines 25-65): dispatch on the
file extension; `csv` goes through PapaParse, `xlsx`/`xls` through the
XLSX reader, anything else throws `'Unsupported file format'`. -/
def parseFileData (name content : String) : Except FileError TableData :=
  let fileExt := fileExtOf name
  if fileExt = "csv" then
    let rows := papaParseHeader content
    .ok ⟨columnsOfRows rows, rows, none⟩
  else if ["xlsx", "xls"].contains fileExt then
    let rows := xlsxSheetToJson content
    .ok ⟨columnsOfRows rows, rows, none⟩
  else .error .unsupportedFormat

/-! ## mapUtils.ts: features, extraction and the monopile layer -/

/-- A GeoJSON geometry object as this code reads it: a `type` tag and, for
`Point` geometries, the flat coordinate array. -/
structure PGeom where
  type : String
  coordinates : List Value
deriving DecidableEq, Repr

/-- A GeoJSON feature: geometry may be `null`/`undefined` (`none`), and so
may `properties`. -/
structure Feature where
  geometry : Option PGeom
  properties : Option Obj
deriving DecidableEq, Repr

/-- The feature filter of `extractMonopilesFromGeoJson`
(`src/utils/mapUtils.ts` line 383): `feature.geometry &&
feature.geometry.type === 'Point'`. -/
def isPointFeature (f : Feature) : Bool :=
  match f.geometry with
  | some g => g.type = "Point"
  | none => false

/-- The coordinates of a feature's geometry (`[]` when geometry is
absent). -/
def coordsOf (f : Feature) : List Value :=
  match f.geometry with
  | some g => g.coordinates
  | none => []

/-- The error thrown by `extractMonopilesFromGeoJson` (`throw new
Error('Invalid point coordinates in GeoJSON')`), the spec's
`InvalidGeometryError`. -/
inductive GeomError where
  | invalidPointCoordinates
deriving DecidableEq, Repr

/-- `Array.prototype.map` with a callback that may throw: stops at the
first exception. -/
def mapExcept (f : α → Except ε β) : List α → Except ε (List β)
  | [] => .ok []
  | a :: as => do
    let b ← f a
    let bs ← mapExcept f as
    pure (b :: bs)

/-- The record built for one Point feature inside
`extractMonopilesFromGeoJson` (`src/utils/mapUtils.ts` lines 392-397):
`\x7bid: properties[idColumnKey] || 'unknown', ...properties,
lat: coordinates[1], lng: coordinates[0]\x7d`. -/
def monopileOfPointFeature (idColumnKey : String) (f : Feature) : Obj :=
  let properties := f.properties.getD []
  let pid := getProp properties idColumnKey
  let idv := if truthy pid then pid else .str "unknown"
  objSet (objSet (objSpread [("id", idv)] properties) "lat" ((coordsOf f).getD 1 .undef))
    "lng" ((coordsOf f).getD 0 .undef)

/-- `extractMonopilesFromGeoJson` (`src/utils/mapUtils.ts` lines 378-402):
keep the Point-geometry features, then map each to a record, throwing when
a Point has fewer than two coordinate components. -/
def extractMonopilesFromGeoJson (features : List Feature) (idColumnKey : String) :
    Except GeomError (List Obj) :=
  mapExcept (fun f =>
      if (coordsOf f).length < 2 then .error .invalidPointCoordinates
      else .ok (monopileOfPointFeature idColumnKey f))
    (features.filter isPointFeature)

/-- The truthiness test `m.lat && m.lng` that selects which records get a
map feature (`src/utils/mapUtils.ts` lines 269 and 356). -/
def hasTruthyCoords (m : Obj) : Bool :=
  truthy (getProp m "lat") && truthy (getProp m "lng")

/-- The feature built for one record by `createGeoJsonFromMonopiles` and
`addMonopiles`: Point geometry `[lng, lat]` and properties
`\x7bid: monopile[idColumnKey], ...monopile\x7d`. -/
def monopileFeature (idColumnKey : String) (m : Obj) : Feature :=
  { geometry := some ⟨"Point", [getProp m "lng", getProp m "lat"]⟩,
    properties := some (objSpread [("id", getProp m idColumnKey)] m) }

/-- `createGeoJsonFromMonopiles` (`src/utils/mapUtils.ts` lines 351-373),
returning the feature list of the produced FeatureCollection: records pass
through `filter(m => m.lat && m.lng)` before becoming Point features. -/
def createGeoJsonFromMonopiles (monopiles : List Obj) (idColumnKey : String) : List Feature :=
  (monopiles.filter hasTruthyCoords).map (monopileFeature idColumnKey)

/-! ## mapUtils.ts: the map-widget state model

The MapLibre widget (external collaborator, spec section 6) is modelled as
explicit state: a camera (center and zoom; the viewport bounds are a
function of these two, so preserving them preserves bounds), named feature
sources, and layers each carrying an optional declarative filter
expression. -/

/-- Camera state: center and zoom (viewport bounds derive from them). -/
structure Camera where
  center : Int × Int
  zoom : Int
deriving DecidableEq, Repr

/-- A maplibre filter expression as this code builds them:
`['==', '$type', t]`, `['in', ['get', key], ['literal', values]]`, and
`['all', a, b]`. -/
inductive FilterExpr where
  | typeEq (t : String)
  | inProp (key : String) (values : List String)
  | allOf (a b : FilterExpr)
deriving DecidableEq, Repr

/-- A map layer: id, backing source, current filter (`none` is maplibre's
`null` filter, showing everything) and paint properties. -/
structure Layer where
  id : String
  source : String
  filter : Option FilterExpr
  paint : List (String × Value)
deriving DecidableEq, Repr

/-- The map-widget state. -/
structure MapState where
  camera : Camera
  sources : List (String × List Feature)
  layers : List Layer
deriving DecidableEq, Repr

/-- `map.getSource(name)` as an existence test. -/
def hasSource (st : MapState) (name : String) : Bool :=
  (st.sources.lookup name).isSome

/-- The feature data of a named source. -/
def getSourceData (st : MapState) (name : String) : Option (List Feature) :=
  st.sources.lookup name

/-- `map.getLayer(id)` as an existence test. -/
def hasLayer (st : MapState) (id : String) : Bool :=
  st.layers.any (fun l => l.id = id)

/-- The current filter of a layer (`none` when the layer is absent). -/
def getFilter (st : MapState) (id : String) : Option (Option FilterExpr) :=
  (st.layers.find? (fun l => l.id = id)).map Layer.filter

/-- `map.setFilter(id, f)`: update the named layer's filter in place; a
missing layer is left alone (maplibre reports an error without mutating
anything). -/
def setFilter (st : MapState) (id : String) (f : Option FilterExpr) : MapState :=
  { st with layers := st.layers.map (fun l => if l.id = id then { l with filter := f } else l) }

/-- `map.removeLayer(id)`. -/
def removeLayer (st : MapState) (id : String) : MapState :=
  { st with layers := st.layers.filter (fun l => l.id != id) }

/-- `map.removeSource(name)`. -/
def removeSource (st : MapState) (name : String) : MapState :=
  { st with sources := st.sources.filter (fun p => p.1 != name) }

/-- `map.addSource(name, data)`. -/
def addSource (st : MapState) (name : String) (data : List Feature) : MapState :=
  { st with sources := st.sources ++ [(name, data)] }

/-- `map.addLayer(l)`. -/
def addLayer (st : MapState) (l : Layer) : MapState :=
  { st with layers := st.layers ++ [l] }

/-- The numeric leading coordinate pair of a feature, when it has one. -/
def coordPairOf (f : Feature) : Option (Int × Int) :=
  match coordsOf f with
  | .num x :: .num y :: _ => some (x, y)
  | _ => none

/-- Midpoint of a list of integers (bounding-interval center). -/
def boundsMid (xs : List Int) : Int :=
  ((xs.foldl min (xs.headD 0)) + (xs.foldl max (xs.headD 0))) / 2

/-- Models the external widget's `fitBounds` (spec section 6: compute and
apply a bounding-box fit): the camera recenters on the bounding box of the
features' leading coordinate pairs and the widget picks a fitting zoom
(modelled as a fixed value; no theorem depends on it). -/
def fitBoundsTo (st : MapState) (fs : List Feature) : MapState :=
  let pts := fs.filterMap coordPairOf
  match pts with
  | [] => st
  | _ =>
    { st with camera :=
        { center := (boundsMid (pts.map Prod.fst), boundsMid (pts.map Prod.snd)), zoom := 10 } }

/-- `addMonopiles` (`src/utils/mapUtils.ts` lines 255-312): remove any
existing monopile source/layer, rebuild the source from the records with
truthy coordinates, re-add the layer, and fit the camera to the features
when there is at least one. -/
def addMonopiles (st : MapState) (monopiles : List Obj) (idColumnKey : String)
    (paint : List (String × Value)) : MapState :=
  let st1 :=
    if hasSource st "monopile-data" then
      removeSource (removeLayer st "monopile-layer") "monopile-data"
    else st
  let features := (monopiles.filter hasTruthyCoords).map (monopileFeature idColumnKey)
  let st2 := addLayer (addSource st1 "monopile-data" features)
    ⟨"monopile-layer", "monopile-data", none, paint⟩
  if features.length > 0 then fitBoundsTo st2 features else st2

/-- `filterMonopilesByIds` (`src/utils/mapUtils.ts` lines 332-346): no-op
without the monopile source; an empty id list sets the `null` filter
(show all), otherwise an `['in', ['get', idColumnKey], ['literal', ids]]`
filter. -/
def filterMonopilesByIds (st : MapState) (ids : List String) (idColumnKey : String) : MapState :=
  if ¬ hasSource st "monopile-data" then st
  else if ids.length = 0 then setFilter st "monopile-layer" none
  else setFilter st "monopile-layer" (some (.inProp idColumnKey ids))

/-- The three overlay layer ids walked by `filterGeoJsonByProperty`. -/
def geojsonLayerIds : List String :=
  ["geojson-fill-layer", "geojson-line-layer", "geojson-point-layer"]

/-- The per-layer base filter used by `filterGeoJsonByProperty` in both
branches (`$type` Point for the circle layer, `$type` Polygon for the fill
layer, `null` for the line layer) — the same filters `addGeoJsonLayer`
installs at load time. -/
def geojsonBaseFilter (layerId : String) : Option FilterExpr :=
  if layerId = "geojson-point-layer" then some (.typeEq "Point")
  else if layerId = "geojson-fill-layer" then some (.typeEq "Polygon")
  else none

/-- `filterGeoJsonByProperty` (`src/utils/mapUtils.ts` lines 184-231):
no-op without the geojson source; an empty value list restores each
existing layer's base filter, otherwise each existing layer gets the base
filter conjoined with the property filter. -/
def filterGeoJsonByProperty (st : MapState) (propertyKey : String)
    (propertyValues : List String) : MapState :=
  if ¬ hasSource st "geojson-data" then st
  else if propertyValues.length = 0 then
    geojsonLayerIds.foldl
      (fun s layerId =>
        if hasLayer s layerId then setFilter s layerId (geojsonBaseFilter layerId) else s)
      st
  else
    geojsonLayerIds.foldl
      (fun s layerId =>
        if hasLayer s layerId then
          let propertyFilter := FilterExpr.inProp propertyKey propertyValues
          match geojsonBaseFilter layerId with
          | some baseFilter => setFilter s layerId (some (.allOf baseFilter propertyFilter))
          | none => setFilter s layerId (some propertyFilter)
        else s)
      st

/-- The `$type` of a feature, as maplibre filter expressions see it. -/
def geomTypeOf (f : Feature) : String :=
  match f.geometry with
  | some g => g.type
  | none => ""

/-- Evaluation of a filter expression on one feature. -/
def evalFilter : FilterExpr → Feature → Bool
  | .typeEq t, f => geomTypeOf f = t
  | .inProp key vals, f =>
    match getProp (f.properties.getD []) key with
    | .str s => vals.contains s
    | _ => false
  | .allOf a b, f => evalFilter a f && evalFilter b f

/-- Whether a feature is shown under a layer filter (`none` shows all). -/
def featureVisible (filt : Option FilterExpr) (f : Feature) : Bool :=
  match filt with
  | none => true
  | some e => evalFilter e f

/-! ## dataUtils.ts: GeoJSON parsing

`parseGeoJsonFile` is `JSON.parse` on the file's text, with the thrown
`SyntaxError` as the spec's `MalformedGeoJsonError`.  `JSON.parse` (a
JavaScript builtin) is modelled by a total recursive-descent parser into a
JSON value tree. -/

/-- A parsed JSON value (numbers kept as their source text). -/
inductive JVal where
  | null
  | bool (b : Bool)
  | num (raw : String)
  | str (s : String)
  | arr (elems : List JVal)
  | obj (fields : List (String × JVal))

/-- Skips JSON whitespace. -/
def skipWs : List Char → List Char
  | c :: rest =>
    if c = ' ' ∨ c = '\n' ∨ c = '\t' ∨ c = '\r' then skipWs rest else c :: rest
  | [] => []

/-- Hexadecimal digit lookup. -/
def hexDigit? (c : Char) : Option Nat :=
  if '0' ≤ c ∧ c ≤ '9' then some (c.toNat - 48)
  else if 'a' ≤ c ∧ c ≤ 'f' then some (c.toNat - 87)
  else if 'A' ≤ c ∧ c ≤ 'F' then some (c.toNat - 55)
  else none

/-- Parses the body of a JSON string literal (opening quote already
consumed), decoding the standard escapes. -/
def parseStrBody : Nat → List Char → Option (String × List Char)
  | 0, _ => none
  | _, [] => none
  | fuel + 1, c :: rest =>
    if c = '"' then some ("", rest)
    else if c = '\\' then
      match rest with
      | [] => none
      | e :: rest2 =>
        if e = 'u' then
          match rest2 with
          | a :: b :: c2 :: d2 :: rest3 => do
            let ha ← hexDigit? a
            let hb ← hexDigit? b
            let hc ← hexDigit? c2
            let hd ← hexDigit? d2
            let (s, r) ← parseStrBody fuel rest3
            pure ((⟨Char.ofNat (((ha * 16 + hb) * 16 + hc) * 16 + hd) :: s.data⟩ : String), r)
          | _ => none
        else do
          let d ←
            if e = '"' then some '"'
            else if e = '\\' then some '\\'
            else if e = '/' then some '/'
            else if e = 'n' then some '\n'
            else if e = 't' then some '\t'
            else if e = 'r' then some '\r'
            else if e = 'b' then some (Char.ofNat 8)
            else if e = 'f' then some (Char.ofNat 12)
            else none
          let (s, r) ← parseStrBody fuel rest2
          pure ((⟨d :: s.data⟩ : String), r)
    else do
      let (s, r) ← parseStrBody fuel rest
      pure ((⟨c :: s.data⟩ : String), r)

/-- Is this character a decimal digit. -/
def isDigitCh (c : Char) : Bool := '0' ≤ c ∧ c ≤ '9'

/-- Parses a JSON number literal, keeping its raw text. -/
def parseNumRaw (cs : List Char) : Option (String × List Char) :=
  let (sign, cs1) := match cs with
    | '-' :: rest => (['-'], rest)
    | _ => ([], cs)
  let intPart := cs1.takeWhile isDigitCh
  let cs2 := cs1.dropWhile isDigitCh
  if intPart.isEmpty then none
  else
    let (fracPart, cs3) := match cs2 with
      | '.' :: rest =>
        let ds := rest.takeWhile isDigitCh
        if ds.isEmpty then ([], cs2) else ('.' :: ds, rest.dropWhile isDigitCh)
      | _ => ([], cs2)
    let (expPart, cs4) := match cs3 with
      | e :: rest =>
        if e = 'e' ∨ e = 'E' then
          let (es, rest2) := match rest with
            | s :: r2 => if s = '+' ∨ s = '-' then ([e, s], r2) else ([e], rest)
            | [] => ([e], rest)
          let ds := rest2.takeWhile isDigitCh
          if ds.isEmpty then ([], cs3) else (es ++ ds, rest2.dropWhile isDigitCh)
        else ([], cs3)
      | [] => ([], cs3)
    some ((⟨sign ++ intPart ++ fracPart ++ expPart⟩ : String), cs4)

/-- Consumes an expected literal word. -/
def expectChars : List Char → List Char → Option (List Char)
  | [], cs => some cs
  | e :: es, c :: cs => if c = e then expectChars es cs else none
  | _ :: _, [] => none

mutual

/-- Parses one JSON value. -/
def parseVal : Nat → List Char → Option (JVal × List Char)
  | 0, _ => none
  | fuel + 1, cs =>
    match skipWs cs with
    | [] => none
    | c :: rest =>
      if c = 'n' then (expectChars ['u', 'l', 'l'] rest).map (fun r => (.null, r))
      else if c = 't' then (expectChars ['r', 'u', 'e'] rest).map (fun r => (.bool true, r))
      else if c = 'f' then (expectChars ['a', 'l', 's', 'e'] rest).map (fun r => (.bool false, r))
      else if c = '"' then (parseStrBody (rest.length + 1) rest).map (fun p => (.str p.1, p.2))
      else if c = '[' then
        match skipWs rest with
        | ']' :: rest2 => some (.arr [], rest2)
        | rest2 => (parseArrItems fuel rest2).map (fun p => (.arr p.1, p.2))
      else if c = '\x7b' then
        match skipWs rest with
        | '\x7d' :: rest2 => some (.obj [], rest2)
        | rest2 => (parseObjItems fuel rest2).map (fun p => (.obj p.1, p.2))
      else (parseNumRaw (c :: rest)).map (fun p => (.num p.1, p.2))

/-- Parses the items of a non-empty JSON array (opening bracket consumed). -/
def parseArrItems : Nat → List Char → Option (List JVal × List Char)
  | 0, _ => none
  | fuel + 1, cs => do
    let (v, r1) ← parseVal fuel cs
    match skipWs r1 with
    | ',' :: r2 => do
      let (vs, r3) ← parseArrItems fuel r2
      pure (v :: vs, r3)
    | ']' :: r2 => pure ([v], r2)
    | _ => none

/-- Parses the members of a non-empty JSON object (opening brace
consumed). -/
def parseObjItems : Nat → List Char → Option (List (String × JVal) × List Char)
  | 0, _ => none
  | fuel + 1, cs =>
    match skipWs cs with
    | '"' :: rest => do
      let (k, r1) ← parseStrBody (rest.length + 1) rest
      match skipWs r1 with
      | ':' :: r2 => do
        let (v, r3) ← parseVal fuel r2
        match skipWs r3 with
        | ',' :: r4 => do
          let (fs, r5) ← parseObjItems fuel r4
          pure ((k, v) :: fs, r5)
        | '\x7d' :: r4 => pure ([(k, v)], r4)
        | _ => none
      | _ => none
    | _ => none

end

/-- Models the JavaScript builtin `JSON.parse`: `none` is the thrown
`SyntaxError`. -/
def jsonParse (s : String) : Option JVal :=
  match parseVal (2 * s.data.length + 2) s.data with
  | some (v, rest) => if (skipWs rest).isEmpty then some v else none
  | none => none

/-- The spec's `MalformedGeoJsonError`. -/
inductive GeoError where
  | malformedGeoJson
deriving DecidableEq, Repr

/-- `parseGeoJsonFile` (`src/utils/dataUtils.ts` lines 70-73): read the
file's text and return `JSON.parse(text)`; the only failure is the parse
throw. -/
def parseGeoJsonFile (text : String) : Except GeoError JVal :=
  match jsonParse text with
  | some v => .ok v
  | none => .error .malformedGeoJson

/-- Spec-side predicate (section 7: GeoJSON "lacks a `features` array"):
whether a parsed value is an object with an array-valued `features`
member. -/
def hasFeaturesArray : JVal → Bool
  | .obj fields =>
    match fields.lookup "features" with
    | some (.arr _) => true
    | _ => false
  | _ => false

/-! ## Concrete sample data used by witnesses and counterexamples -/

/-- A table row with identifier `"A"`. -/
def rowA : Obj := [("id", .str "A"), ("name", .str "Foo")]

/-- A table row with identifier `"A2"`. -/
def rowA2 : Obj := [("id", .str "A2"), ("name", .str "Bar")]

/-- A linked point with identifier `"A"` at `(lat 1, lng 2)`. -/
def linkA1 : Obj := [("id", .str "A"), ("lat", .num 1), ("lng", .num 2)]

/-- A second linked point with the same identifier `"A"` at
`(lat 3, lng 4)`. -/
def linkA2 : Obj := [("id", .str "A"), ("lat", .num 3), ("lng", .num 4)]

/-- First of two table rows sharing identifier `"A"`. -/
def dupRowX : Obj := [("id", .str "A"), ("name", .str "x")]

/-- Second of two table rows sharing identifier `"A"`. -/
def dupRowY : Obj := [("id", .str "A"), ("name", .str "y")]

/-- A record with numeric coordinates whose `lat` is `0`. -/
def recZeroLat : Obj := [("id", .str "A"), ("lat", .num 0), ("lng", .num 5)]

/-- A record with truthy numeric coordinates. -/
def recGood : Obj := [("id", .str "B"), ("lat", .num 52), ("lng", .num 4)]

/-- A Point feature whose `pid` property is the empty string. -/
def fEmptyPid : Feature := ⟨some ⟨"Point", [.num 4, .num 52]⟩, some [("pid", .str "")]⟩

/-- A non-Point feature. -/
def fLine : Feature := ⟨some ⟨"LineString", []⟩, none⟩

/-- A plain layer with the given id, source and filter. -/
def layer0 (lid src : String) (f : Option FilterExpr) : Layer := ⟨lid, src, f, []⟩

/-- A demo map state with both sources, the four layers, and the initial
camera of `createMap` (center `[0, 20]`, zoom `2`). -/
def demoMap : MapState :=
  ⟨⟨(0, 20), 2⟩,
   [("geojson-data", []), ("monopile-data", [])],
   [layer0 "geojson-fill-layer" "geojson-data" (some (.typeEq "Polygon")),
    layer0 "geojson-line-layer" "geojson-data" none,
    layer0 "geojson-point-layer" "geojson-data" (some (.typeEq "Point")),
    layer0 "monopile-layer" "monopile-data" none]⟩

/-! ## C5: search filtering -/

/-- C5: `filterMonopiles` returns the whole record list unchanged (and in
order) on the empty query; it is idempotent for every query; and its
result is always a subset of the input records. -/
theorem filterMonopiles_empty_idem_subset (monopiles : List Obj) (q idColumnKey : String) :
    filterMonopiles monopiles "" idColumnKey = monopiles ∧
    filterMonopiles (filterMonopiles monopiles q idColumnKey) q idColumnKey
      = filterMonopiles monopiles q idColumnKey ∧
    filterMonopiles monopiles q idColumnKey ⊆ monopiles := by
  refine ⟨rfl, ?_, ?_⟩
  · by_cases h : q = ""
    · simp [filterMonopiles, h]
    · simp only [filterMonopiles, h, if_false, List.filter_filter]
      congr 1
      funext m
      exact (Bool.and_self _)
  · by_cases h : q = ""
    · simp [filterMonopiles, h]
    · simp only [filterMonopiles, h, if_false]
      exact (List.filter_sublist _).subset

/-! ## C7: tabular-parse format dispatch -/

/-- C7: `parseFileData` fails with the unsupported-format error exactly
when the lower-cased segment of the file name after its last dot is not
one of `csv`, `xlsx`, `xls`; every successful parse carries
`idColumnKey = null`. -/
theorem parseFileData_unsupported_iff (name content : String) :
    (parseFileData name content = .error .unsupportedFormat ↔
      fileExtOf name ∉ (["csv", "xlsx", "xls"] : List String)) ∧
    ∀ td, parseFileData name content = .ok td → td.idColumnKey = none := by
  constructor
  · by_cases h1 : fileExtOf name = "csv"
    · simp [parseFileData, h1]
    · by_cases h2 : fileExtOf name = "xlsx"
      · simp [parseFileData, h1, h2]
      · by_cases h3 : fileExtOf name = "xls"
        · simp [parseFileData, h1, h2, h3]
        · simp [parseFileData, h1, h2, h3]
  · intro td h
    simp only [parseFileData] at h
    split_ifs at h with h1 h2
    · cases h; rfl
    · cases h; rfl

/-- C7 witness: at `"pile.txt"` the parse fails as unsupported, and at
`"pile.csv"` the parse succeeds with no identifier column chosen. -/
theorem parseFileData_unsupported_iff_witness :
    parseFileData "pile.txt" "x" = .error .unsupportedFormat ∧
    (parseFileData "pile.csv" "id,name\nA1,Foo").toOption.map TableData.idColumnKey
      = some none := by
  constructor
  · exact (parseFileData_unsupported_iff "pile.txt" "x").1.mpr (by decide)
  · have h := (parseFileData_unsupported_iff "pile.csv" "id,name\nA1,Foo").2
      ⟨[⟨"id", "id"⟩, ⟨"name", "name"⟩], [[("id", .str "A1"), ("name", .str "Foo")]], none⟩
      rfl
    have h2 : parseFileData "pile.csv" "id,name\nA1,Foo" =
        .ok ⟨[⟨"id", "id"⟩, ⟨"name", "name"⟩],
          [[("id", .str "A1"), ("name", .str "Foo")]], none⟩ := rfl
    rw [h2]
    exact congrArg some h

/-! ## C10: CSV uploads can never hit the parse-failure path -/

/-- C10: for any content whatever, a file with extension `csv` parses to a
`TableData` and never rejects; its columns are derived from the key set of
the first parsed row, and zero columns are produced when no rows parse. -/
theorem parseFileData_csv_total (name content : String) (h : fileExtOf name = "csv") :
    ∃ td, parseFileData name content = .ok td ∧ td.idColumnKey = none ∧
      td.rows = papaParseHeader content ∧
      td.columns = (objKeys (td.rows.headD [])).map (fun k => (⟨k, k⟩ : ColumnOption)) ∧
      (td.rows = [] → td.columns = []) := by
  refine ⟨⟨columnsOfRows (papaParseHeader content), papaParseHeader content, none⟩,
    by simp [parseFileData, h], rfl, rfl, rfl, ?_⟩
  intro hr
  have hr2 : papaParseHeader content = [] := hr
  simp only [columnsOfRows, hr2]
  rfl

/-- C10 witness: malformed quoting in a `.csv` upload still resolves to a
`TableData`. -/
theorem parseFileData_csv_total_witness :
    (parseFileData "broken.csv" "id,\"na\nme\nA1").toOption.isSome = true := by
  obtain ⟨td, h1, -⟩ := parseFileData_csv_total "broken.csv" "id,\"na\nme\nA1" (by decide)
  rw [h1]
  rfl

/-! ## C8: GeoJSON parse failure condition -/

/-- C8 counterexample: the text `"\x7b\x7d"` parses as JSON and has no
`features` array, yet `parseGeoJsonFile` succeeds instead of failing —
refuting "fails ... exactly when ... the parsed value lacks a `features`
array". -/
theorem parseGeoJsonFile_missing_features_still_ok :
    parseGeoJsonFile "\x7b\x7d" = .ok (JVal.obj []) ∧
    hasFeaturesArray (JVal.obj []) = false :=
  ⟨rfl, rfl⟩

/-- C8 amended: `parseGeoJsonFile` fails with the malformed-GeoJSON error
exactly when the text fails to parse as JSON; every value that parses is
returned as the collection, whether or not it has a `features` array. -/
theorem parseGeoJsonFile_error_iff (text : String) :
    (parseGeoJsonFile text = .error .malformedGeoJson ↔ jsonParse text = none) ∧
    ∀ v, jsonParse text = some v → parseGeoJsonFile text = .ok v := by
  constructor
  · cases h : jsonParse text <;> simp [parseGeoJsonFile, h]
  · intro v h
    simp [parseGeoJsonFile, h]

/-- C8 witness: unparsable text fails, parsable text succeeds. -/
theorem parseGeoJsonFile_error_iff_witness :
    parseGeoJsonFile "nope" = .error .malformedGeoJson ∧
    parseGeoJsonFile "null" = .ok JVal.null :=
  ⟨(parseGeoJsonFile_error_iff "nope").1.mpr rfl,
   (parseGeoJsonFile_error_iff "null").2 JVal.null rfl⟩

/-! ## C2: merging coordinates is order-preserving -/

/-- C2: `mergeCoordinates` keeps the row count and the row order — the
output row at each position is the input row at the same position, either
unchanged or with just `lat`/`lng` assigned — and a row whose identifier
value matches no linked point is returned unchanged. -/
theorem mergeCoordinates_order_and_unmatched (rows monopiles : List Obj) (columnKey : String) :
    (mergeCoordinates rows monopiles columnKey).length = rows.length ∧
    (∀ i (h : i < rows.length),
      (∀ m ∈ monopiles, getProp m columnKey ≠ getProp (rows.get ⟨i, h⟩) columnKey) →
      (mergeCoordinates rows monopiles columnKey).get
        ⟨i, by simpa [mergeCoordinates] using h⟩ = rows.get ⟨i, h⟩) ∧
    (∀ i (h : i < rows.length),
      (mergeCoordinates rows monopiles columnKey).get
        ⟨i, by simpa [mergeCoordinates] using h⟩ = rows.get ⟨i, h⟩ ∨
      ∃ latv lngv,
        (mergeCoordinates rows monopiles columnKey).get
          ⟨i, by simpa [mergeCoordinates] using h⟩ =
        objSet (objSet (rows.get ⟨i, h⟩) "lat" latv) "lng" lngv) := by
  refine ⟨by simp [mergeCoordinates], ?_, ?_⟩
  · intro i h hnone
    have hfind : monopiles.find?
        (fun m => getProp m columnKey = getProp (rows.get ⟨i, h⟩) columnKey) = none := by
      rw [List.find?_eq_none]
      intro m hm
      simpa using hnone m hm
    simp only [List.get_eq_getElem] at hfind
    simp [mergeCoordinates, List.get_eq_getElem, List.getElem_map, hfind]
  · intro i h
    cases hfind : monopiles.find?
        (fun m => getProp m columnKey = getProp (rows.get ⟨i, h⟩) columnKey) with
    | none =>
      left
      simp only [List.get_eq_getElem] at hfind
      simp [mergeCoordinates, List.get_eq_getElem, List.getElem_map, hfind]
    | some mtch =>
      right
      refine ⟨getProp mtch "lat", getProp mtch "lng", ?_⟩
      simp only [List.get_eq_getElem] at hfind
      simp [mergeCoordinates, List.get_eq_getElem, List.getElem_map, hfind]

/-- C2 witness: a row whose identifier matches no linked point comes back
unchanged. -/
theorem mergeCoordinates_order_and_unmatched_witness :
    (mergeCoordinates [rowA2] [linkA1] "id").headD [] = rowA2 := by
  have h := (mergeCoordinates_order_and_unmatched [rowA2] [linkA1] "id").2.1 0
    (by decide) (by decide)
  simpa using h

/-! ## C4: duplicate linked identifiers collide toward the FIRST match -/

/-- C4 counterexample: with two linked points sharing identifier `"A"`,
the merged row carries the `lat` of the first one (`1`), not of the last
one (`3`) — refuting "the LAST matching linked point wins". -/
theorem mergeCoordinates_last_does_not_win :
    getProp ((mergeCoordinates [rowA] [linkA1, linkA2] "id").headD []) "lat" = .num 1 ∧
    getProp linkA2 "lat" = .num 3 ∧
    getProp ((mergeCoordinates [rowA] [linkA1, linkA2] "id").headD []) "lat" ≠
      getProp linkA2 "lat" := by decide

/-- `find?` returns the element at the first index satisfying the
predicate. -/
theorem find?_of_first {α : Type} (p : α → Bool) (l : List α) (j : Nat) (hj : j < l.length)
    (hp : p (l.get ⟨j, hj⟩) = true)
    (hearlier : ∀ k (hk : k < l.length), k < j → p (l.get ⟨k, hk⟩) = false) :
    l.find? p = some (l.get ⟨j, hj⟩) := by
  induction l generalizing j with
  | nil => exact absurd hj (by simp)
  | cons a t ih =>
    cases j with
    | zero =>
      simp only [List.get] at hp
      simp [List.find?, hp]
    | succ j2 =>
      have ha : p a = false := hearlier 0 (by simp) (by omega)
      simp only [List.find?, ha]
      exact ih j2 (by simpa using hj) hp
        (fun k hk hkj => hearlier (k + 1) (by simpa using hk) (by omega))

/-- C4 amended: when a table row's identifier value equals that of several
linked points, the merged row carries the `lat`/`lng` of the FIRST such
linked point in the linked-point list. -/
theorem mergeCoordinates_first_match_wins (rows monopiles : List Obj) (columnKey : String)
    (i : Nat) (hi : i < rows.length) (j : Nat) (hj : j < monopiles.length)
    (hmatch : getProp (monopiles.get ⟨j, hj⟩) columnKey = getProp (rows.get ⟨i, hi⟩) columnKey)
    (hearlier : ∀ k (hk : k < monopiles.length), k < j →
      getProp (monopiles.get ⟨k, hk⟩) columnKey ≠ getProp (rows.get ⟨i, hi⟩) columnKey) :
    (mergeCoordinates rows monopiles columnKey).get
      ⟨i, by simpa [mergeCoordinates] using hi⟩ =
    objSet (objSet (rows.get ⟨i, hi⟩) "lat" (getProp (monopiles.get ⟨j, hj⟩) "lat"))
      "lng" (getProp (monopiles.get ⟨j, hj⟩) "lng") := by
  have hfind : monopiles.find?
      (fun m => getProp m columnKey = getProp (rows.get ⟨i, hi⟩) columnKey)
      = some (monopiles.get ⟨j, hj⟩) := by
    refine find?_of_first _ monopiles j hj (by simpa using hmatch) ?_
    intro k hk hkj
    simpa using hearlier k hk hkj
  simp only [List.get_eq_getElem] at hfind
  simp [mergeCoordinates, List.get_eq_getElem, List.getElem_map, hfind]

/-- C4 witness: with duplicates `linkA1` then `linkA2`, the merged row
gets `linkA1`'s coordinates. -/
theorem mergeCoordinates_first_match_wins_witness :
    (mergeCoordinates [rowA] [linkA1, linkA2] "id").headD [] =
      objSet (objSet rowA "lat" (.num 1)) "lng" (.num 2) := by
  have h := mergeCoordinates_first_match_wins [rowA] [linkA1, linkA2] "id" 0 (by decide)
    0 (by decide) (by decide) (fun k hk hkj => absurd hkj (by omega))
  simpa using h

/-! ## C3: manual placement updates every duplicate, not just the first -/

/-- C3 counterexample: with two rows sharing identifier `"A"`, manual
placement rewrites the second (later-duplicate) row too — refuting
"returns every other row (including any later duplicate-identifier rows)
untouched". -/
theorem updateMonopileCoordinates_changes_later_duplicates :
    getProp dupRowY "id" = .str "A" ∧
    (updateMonopileCoordinates [dupRowX, dupRowY] "id" "A" 7 8).getD 1 [] ≠ dupRowY ∧
    (updateMonopileCoordinates [dupRowX, dupRowY] "id" "A" 7 8).getD 1 [] =
      objSet (objSet dupRowY "lat" (.num 7)) "lng" (.num 8) := by decide

/-- C3 amended: `updateMonopileCoordinates` keeps the row count and
replaces `lat`/`lng` on EVERY row whose identifier-column value equals the
given identifier value, returning each row with a different identifier
value untouched. -/
theorem updateMonopileCoordinates_updates_all_matches (monopiles : List Obj)
    (idColumnKey id : String) (lat lng : Int) :
    (updateMonopileCoordinates monopiles idColumnKey id lat lng).length = monopiles.length ∧
    ∀ i (h : i < monopiles.length),
      (updateMonopileCoordinates monopiles idColumnKey id lat lng).get
        ⟨i, by simpa [updateMonopileCoordinates] using h⟩ =
      (if getProp (monopiles.get ⟨i, h⟩) idColumnKey = Value.str id
       then objSet (objSet (monopiles.get ⟨i, h⟩) "lat" (.num lat)) "lng" (.num lng)
       else monopiles.get ⟨i, h⟩) := by
  refine ⟨by simp [updateMonopileCoordinates], ?_⟩
  intro i h
  simp [updateMonopileCoordinates, List.get_eq_getElem, List.getElem_map]

/-- C3 witness: a single matching row gets the clicked coordinates. -/
theorem updateMonopileCoordinates_updates_all_matches_witness :
    (updateMonopileCoordinates [dupRowX] "id" "A" 7 8).headD [] =
      objSet (objSet dupRowX "lat" (.num 7)) "lng" (.num 8) := by
  have h := (updateMonopileCoordinates_updates_all_matches [dupRowX] "id" "A" 7 8).2 0
    (by decide)
  simpa using h

/-! ## C6: GeoJSON-to-records extraction -/

/-- `mapExcept` succeeds as a plain map when no element throws. -/
theorem mapExcept_ok_of_no_throw {α β ε : Type} (c : α → Bool) (g : α → β) (err : ε)
    (l : List α) (h : ∀ a ∈ l, c a = false) :
    mapExcept (fun a => if c a then .error err else .ok (g a)) l = .ok (l.map g) := by
  induction l with
  | nil => rfl
  | cons a t ih =>
    have ha : c a = false := h a (by simp)
    simp only [mapExcept, ha, if_false, List.map_cons]
    rw [ih (fun x hx => h x (by simp [hx]))]
    rfl

/-- C6 counterexample: a Point feature whose chosen identifier property is
the empty string (neither null nor undefined) is still extracted with
`id = "unknown"`, because the code uses the falsy-or `||`, not `??` —
refuting "id is 'unknown' exactly when the property is null or
undefined". -/
theorem extractMonopiles_unknown_on_empty_string :
    getProp (fEmptyPid.properties.getD []) "pid" = .str "" ∧
    Value.str "" ≠ .null ∧ Value.str "" ≠ .undef ∧
    ((extractMonopilesFromGeoJson [fEmptyPid] "pid").toOption.map
      (fun l => getProp (l.headD []) "id")) = some (.str "unknown") := by decide

/-- C6 amended: when every Point feature has at least two coordinate
components, extraction yields exactly one record per Point feature, in
feature order, of the shape `\x7bid: properties[key] || 'unknown',
...properties, lat: coordinates[1], lng: coordinates[0]\x7d` (so `id` is
`'unknown'` exactly when the property value is JS-falsy: undefined, null,
false, 0 or the empty string), and every non-Point feature is skipped. -/
theorem extractMonopiles_amended (features : List Feature) (idColumnKey : String)
    (h : ∀ f ∈ features, isPointFeature f = true → 2 ≤ (coordsOf f).length) :
    extractMonopilesFromGeoJson features idColumnKey =
      .ok ((features.filter isPointFeature).map (monopileOfPointFeature idColumnKey)) := by
  unfold extractMonopilesFromGeoJson
  have hconv :
      (fun f => if (coordsOf f).length < 2 then
          (Except.error GeomError.invalidPointCoordinates : Except GeomError Obj)
        else .ok (monopileOfPointFeature idColumnKey f)) =
      (fun f => if ((coordsOf f).length < 2 : Bool) then
          (Except.error GeomError.invalidPointCoordinates : Except GeomError Obj)
        else .ok (monopileOfPointFeature idColumnKey f)) := by
    funext f
    by_cases hf : (coordsOf f).length < 2 <;> simp [hf]
  rw [hconv]
  refine mapExcept_ok_of_no_throw (fun f => ((coordsOf f).length < 2 : Bool))
    (monopileOfPointFeature idColumnKey) GeomError.invalidPointCoordinates
    (features.filter isPointFeature) ?_
  intro f hf
  have hmem := List.mem_filter.mp hf
  have := h f hmem.1 hmem.2
  simp only [decide_eq_false_iff_not]
  omega

/-- C6 witness: a Point feature with an empty-string id property plus a
LineString feature extract to exactly one record, the LineString being
skipped. -/
theorem extractMonopiles_amended_witness :
    extractMonopilesFromGeoJson [fEmptyPid, fLine] "pid" =
      .ok ((([fEmptyPid, fLine] : List Feature).filter isPointFeature).map
        (monopileOfPointFeature "pid")) :=
  extractMonopiles_amended [fEmptyPid, fLine] "pid" (by decide)

/-! ## C9: which records get a feature on the monopile layer -/

/-- `lookup` misses every key removed by a key-based filter. -/
theorem lookup_filter_ne_none {β : Type} (l : List (String × β)) (n : String) :
    (l.filter (fun p => p.1 != n)).lookup n = none := by
  induction l with
  | nil => rfl
  | cons a t ih =>
    by_cases ha : a.1 = n
    · simp [List.filter, ha, ih]
    · have hne : (a.1 != n) = true := by simpa using ha
      simp only [List.filter, hne]
      simp only [List.lookup]
      have hne2 : (n == a.1) = false := by simpa using fun e => ha e.symm
      rw [hne2]
      exact ih

/-- `lookup` falls through to the right list when the left misses. -/
theorem lookup_append_of_none {β : Type} (l1 l2 : List (String × β)) (n : String)
    (h : l1.lookup n = none) : (l1 ++ l2).lookup n = l2.lookup n := by
  induction l1 with
  | nil => rfl
  | cons a t ih =>
    simp only [List.lookup] at h ⊢
    by_cases ha : (n == a.1) = true
    · rw [ha] at h; cases h
    · rw [Bool.not_eq_true] at ha
      rw [ha] at h ⊢
      exact ih h

/-- C9 counterexample: a record with present, numeric coordinates
`lat = 0, lng = 5` gets NO feature — the code tests JS truthiness
(`m.lat && m.lng`), so the numeric value `0` is dropped — refuting "a
record with a present numeric coordinate (including the value 0) is
included". -/
theorem createGeoJson_excludes_zero_lat :
    getProp recZeroLat "lat" = .num 0 ∧ getProp recZeroLat "lng" = .num 5 ∧
    createGeoJsonFromMonopiles [recZeroLat] "id" = [] ∧
    getSourceData (addMonopiles demoMap [recZeroLat] "id" []) "monopile-data" = some [] := by
  refine ⟨by decide, by decide, by decide, ?_⟩
  decide

/-- C9 amended: the features placed in the monopile point source are
exactly the records whose `lat` and `lng` are both JS-truthy (so a record
with `lat` or `lng` equal to 0, missing, null or the empty string is
excluded, while truthy non-numeric values pass): the feature list has one
feature per truthy-coordinate record, a record's feature is present iff
its coordinates are truthy, and `addMonopiles` installs exactly this list
as the point source's data. -/
theorem createGeoJson_truthy_iff (monopiles : List Obj) (idColumnKey : String)
    (st : MapState) (paint : List (String × Value)) :
    (createGeoJsonFromMonopiles monopiles idColumnKey).length =
      (monopiles.filter hasTruthyCoords).length ∧
    (∀ m ∈ monopiles,
      (monopileFeature idColumnKey m ∈ createGeoJsonFromMonopiles monopiles idColumnKey ↔
        hasTruthyCoords m = true)) ∧
    getSourceData (addMonopiles st monopiles idColumnKey paint) "monopile-data" =
      some (createGeoJsonFromMonopiles monopiles idColumnKey) := by
  refine ⟨by simp [createGeoJsonFromMonopiles], ?_, ?_⟩
  · intro m hm
    constructor
    · intro hmem
      obtain ⟨m2, hm2, heq⟩ := List.mem_map.mp hmem
      have hm2f := List.mem_filter.mp hm2
      have hcoords : getProp m2 "lng" = getProp m "lng" ∧ getProp m2 "lat" = getProp m "lat" := by
        have hgeom := congrArg Feature.geometry heq
        simpa [monopileFeature] using hgeom
      have ht := hm2f.2
      simp only [hasTruthyCoords] at ht ⊢
      rw [← hcoords.1, ← hcoords.2]
      exact ht
    · intro ht
      exact List.mem_map.mpr ⟨m, List.mem_filter.mpr ⟨hm, ht⟩, rfl⟩
  · simp only [addMonopiles, createGeoJsonFromMonopiles]
    by_cases hs : hasSource st "monopile-data"
    · rw [if_pos hs]
      set fs := (monopiles.filter hasTruthyCoords).map (monopileFeature idColumnKey) with hfs
      by_cases hlen : fs.length > 0
      · rw [if_pos hlen]
        simp only [fitBoundsTo]
        cases hpts : fs.filterMap coordPairOf with
        | nil =>
          simp only [getSourceData, addLayer, addSource, removeSource, removeLayer]
          exact lookup_append_of_none _ _ _ (lookup_filter_ne_none _ _)
        | cons p ps =>
          simp only [getSourceData, addLayer, addSource, removeSource, removeLayer]
          exact lookup_append_of_none _ _ _ (lookup_filter_ne_none _ _)
      · rw [if_neg hlen]
        simp only [getSourceData, addLayer, addSource, removeSource, removeLayer]
        exact lookup_append_of_none _ _ _ (lookup_filter_ne_none _ _)
    · rw [if_neg hs]
      set fs := (monopiles.filter hasTruthyCoords).map (monopileFeature idColumnKey) with hfs
      have hnone : st.sources.lookup "monopile-data" = none := by
        have h2 : ¬ (st.sources.lookup "monopile-data").isSome = true := hs
        exact Option.not_isSome_iff_eq_none.mp h2
      by_cases hlen : fs.length > 0
      · rw [if_pos hlen]
        simp only [fitBoundsTo]
        cases hpts : fs.filterMap coordPairOf with
        | nil =>
          simp only [getSourceData, addLayer, addSource]
          exact lookup_append_of_none _ _ _ hnone
        | cons p ps =>
          simp only [getSourceData, addLayer, addSource]
          exact lookup_append_of_none _ _ _ hnone
      · rw [if_neg hlen]
        simp only [getSourceData, addLayer, addSource]
        exact lookup_append_of_none _ _ _ hnone

/-- C9 witness: of a zero-lat record and a truthy-coordinate record, only
the latter's feature lands on the layer, and the source holds exactly the
produced list. -/
theorem createGeoJson_truthy_iff_witness :
    (monopileFeature "id" recGood ∈ createGeoJsonFromMonopiles [recZeroLat, recGood] "id") ∧
    ¬ hasTruthyCoords recZeroLat = true ∧
    getSourceData (addMonopiles demoMap [recZeroLat, recGood] "id" []) "monopile-data" =
      some (createGeoJsonFromMonopiles [recZeroLat, recGood] "id") := by
  refine ⟨((createGeoJson_truthy_iff [recZeroLat, recGood] "id" demoMap []).2.1 recGood
    (by decide)).mpr (by decide), by decide,
    (createGeoJson_truthy_iff [recZeroLat, recGood] "id" demoMap []).2.2⟩

/-! ## C1: id filtering never moves the camera; empty ids show all -/

/-- Setting a filter on a layer the state has reports that filter back. -/
theorem getFilter_setFilter_self (st : MapState) (lid : String) (f : Option FilterExpr)
    (h : hasLayer st lid = true) : getFilter (setFilter st lid f) lid = some f := by
  obtain ⟨cam, srcs, layers⟩ := st
  simp only [hasLayer] at h
  simp only [getFilter, setFilter]
  induction layers with
  | nil => simp at h
  | cons a t ih =>
    by_cases ha : a.id = lid
    · simp [List.find?, ha]
    · simp only [List.map_cons, List.find?, if_neg ha]
      simp only [ha, decide_False]
      exact ih (by simpa [ha] using h)

/-- Setting a filter on one layer leaves every other layer\'s filter
unchanged. -/
theorem getFilter_setFilter_ne (st : MapState) (lid lid2 : String) (f : Option FilterExpr)
    (h : lid2 ≠ lid) : getFilter (setFilter st lid2 f) lid = getFilter st lid := by
  obtain ⟨cam, srcs, layers⟩ := st
  simp only [getFilter, setFilter]
  induction layers with
  | nil => rfl
  | cons a t ih =>
    by_cases ha : a.id = lid2
    · have hne2 : ¬ a.id = lid := fun e => h (ha.symm.trans e)
      simp only [List.map_cons, List.find?, if_pos ha]
      simp only [hne2, decide_False]
      exact ih
    · by_cases hal : a.id = lid
      · simp only [List.map_cons, List.find?, if_neg ha]
        have d : decide (a.id = lid) = true := by simpa using hal
        rw [d]
      · simp only [List.map_cons, List.find?, if_neg ha]
        simp only [hal, decide_False]
        exact ih

/-- Setting a filter never changes which layers exist. -/
theorem hasLayer_setFilter (st : MapState) (lid lid2 : String) (f : Option FilterExpr) :
    hasLayer (setFilter st lid2 f) lid = hasLayer st lid := by
  obtain ⟨cam, srcs, layers⟩ := st
  simp only [hasLayer, setFilter]
  induction layers with
  | nil => rfl
  | cons a t ih =>
    by_cases ha : a.id = lid2
    · simp only [List.map_cons, List.any_cons, if_pos ha]
      rw [ih]
    · simp only [List.map_cons, List.any_cons, if_neg ha]
      rw [ih]

/-- The per-layer step of `filterGeoJsonByProperty`\'s empty branch leaves
other layers\' filters alone. -/
theorem emptyStep_preserves_getFilter (s : MapState) (x lid : String) (h : x ≠ lid) :
    getFilter (if hasLayer s x then setFilter s x (geojsonBaseFilter x) else s) lid
      = getFilter s lid := by
  by_cases hx : hasLayer s x
  · rw [if_pos hx]
    exact getFilter_setFilter_ne s lid x _ h
  · rw [if_neg hx]

/-- The per-layer step of `filterGeoJsonByProperty`\'s empty branch keeps
layer existence. -/
theorem emptyStep_preserves_hasLayer (s : MapState) (x lid : String) :
    hasLayer (if hasLayer s x then setFilter s x (geojsonBaseFilter x) else s) lid
      = hasLayer s lid := by
  by_cases hx : hasLayer s x
  · rw [if_pos hx]
    exact hasLayer_setFilter s lid x _
  · rw [if_neg hx]

/-- A fold of camera-preserving steps preserves the camera. -/
theorem foldl_camera (step : MapState → String → MapState)
    (h : ∀ s x, (step s x).camera = s.camera) (l : List String) (st : MapState) :
    (l.foldl step st).camera = st.camera := by
  induction l generalizing st with
  | nil => rfl
  | cons a t ih => rw [List.foldl, ih, h]

/-- `filterGeoJsonByProperty` never touches the camera. -/
theorem filterGeoJson_camera (st : MapState) (key : String) (ids : List String) :
    (filterGeoJsonByProperty st key ids).camera = st.camera := by
  unfold filterGeoJsonByProperty
  by_cases h1 : ¬ hasSource st "geojson-data"
  · rw [if_pos h1]
  · rw [if_neg h1]
    by_cases h2 : ids.length = 0
    · rw [if_pos h2]
      apply foldl_camera
      intro s x
      by_cases hx : hasLayer s x
      · rw [if_pos hx]
        rfl
      · rw [if_neg hx]
    · rw [if_neg h2]
      apply foldl_camera
      intro s x
      by_cases hx : hasLayer s x
      · rw [if_pos hx]
        cases hbf : geojsonBaseFilter x <;> simp [hbf, setFilter]
      · rw [if_neg hx]

/-- C1: the point filter and the overlay filter leave the camera (center,
zoom, hence viewport bounds) unchanged for every id set, empty or not;
with an empty id set the point layer gets the `null` filter and each
overlay layer its load-time base filter, under which every feature is
shown (the `null`/line filter passes everything, and each geometry type
passes its own layer\'s `$type` filter). -/
theorem filter_ops_preserve_camera (st : MapState) (key : String) (ids : List String) :
    (filterMonopilesByIds st ids key).camera = st.camera ∧
    (filterGeoJsonByProperty st key ids).camera = st.camera ∧
    (hasSource st "monopile-data" = true → hasLayer st "monopile-layer" = true →
      getFilter (filterMonopilesByIds st [] key) "monopile-layer" = some none) ∧
    (hasSource st "geojson-data" = true →
      ∀ lid ∈ geojsonLayerIds, hasLayer st lid = true →
        getFilter (filterGeoJsonByProperty st key []) lid = some (geojsonBaseFilter lid)) ∧
    (∀ f : Feature, featureVisible none f = true ∧
      featureVisible (geojsonBaseFilter "geojson-line-layer") f = true ∧
      (geomTypeOf f = "Point" →
        featureVisible (geojsonBaseFilter "geojson-point-layer") f = true) ∧
      (geomTypeOf f = "Polygon" →
        featureVisible (geojsonBaseFilter "geojson-fill-layer") f = true)) := by
  refine ⟨?_, ?_, ?_, ?_, ?_⟩
  · unfold filterMonopilesByIds
    split_ifs <;> rfl
  · exact filterGeoJson_camera st key ids
  · intro hsrc hlay
    have hbranch : filterMonopilesByIds st [] key = setFilter st "monopile-layer" none := by
      simp [filterMonopilesByIds, hsrc]
    rw [hbranch]
    exact getFilter_setFilter_self st "monopile-layer" none hlay
  · intro hsrc lid hmem hlay
    have hbranch : filterGeoJsonByProperty st key [] =
        geojsonLayerIds.foldl
          (fun s layerId =>
            if hasLayer s layerId then setFilter s layerId (geojsonBaseFilter layerId) else s)
          st := by
      simp [filterGeoJsonByProperty, hsrc]
    rw [hbranch]
    simp only [geojsonLayerIds, List.foldl]
    simp only [geojsonLayerIds, List.mem_cons, List.not_mem_nil, or_false] at hmem
    rcases hmem with h | h | h
    all_goals subst h
    · rw [emptyStep_preserves_getFilter _ _ _ (by decide),
        emptyStep_preserves_getFilter _ _ _ (by decide)]
      rw [if_pos hlay]
      exact getFilter_setFilter_self st _ _ hlay
    · rw [emptyStep_preserves_getFilter _ _ _ (by decide)]
      have hl2 : hasLayer
          (if hasLayer st "geojson-fill-layer" then
            setFilter st "geojson-fill-layer" (geojsonBaseFilter "geojson-fill-layer")
          else st) "geojson-line-layer" = true := by
        rw [emptyStep_preserves_hasLayer]
        exact hlay
      rw [if_pos hl2]
      exact getFilter_setFilter_self _ _ _ hl2
    · have hl2 : hasLayer
          (if hasLayer st "geojson-fill-layer" then
            setFilter st "geojson-fill-layer" (geojsonBaseFilter "geojson-fill-layer")
          else st) "geojson-point-layer" = true := by
        rw [emptyStep_preserves_hasLayer]
        exact hlay
      have hl3 : hasLayer
          (if hasLayer
              (if hasLayer st "geojson-fill-layer" then
                setFilter st "geojson-fill-layer" (geojsonBaseFilter "geojson-fill-layer")
              else st) "geojson-line-layer" then
            setFilter
              (if hasLayer st "geojson-fill-layer" then
                setFilter st "geojson-fill-layer" (geojsonBaseFilter "geojson-fill-layer")
              else st) "geojson-line-layer" (geojsonBaseFilter "geojson-line-layer")
          else
            (if hasLayer st "geojson-fill-layer" then
              setFilter st "geojson-fill-layer" (geojsonBaseFilter "geojson-fill-layer")
            else st)) "geojson-point-layer" = true := by
        rw [emptyStep_preserves_hasLayer, emptyStep_preserves_hasLayer]
        exact hlay
      rw [if_pos hl3]
      exact getFilter_setFilter_self _ _ _ hl3
  · intro f
    refine ⟨rfl, rfl, ?_, ?_⟩
    · intro h
      simp [geojsonBaseFilter, featureVisible, evalFilter, h]
    · intro h
      simp [geojsonBaseFilter, featureVisible, evalFilter, h]

/-- C1 witness: on a fully populated demo map, filtering by a non-empty
and by an empty id set leaves the camera untouched, and the empty set
clears the filters. -/
theorem filter_ops_preserve_camera_witness :
    (filterMonopilesByIds demoMap ["A1"] "id").camera = demoMap.camera ∧
    (filterGeoJsonByProperty demoMap "id" ["A1"]).camera = demoMap.camera ∧
    getFilter (filterMonopilesByIds demoMap [] "id") "monopile-layer" = some none ∧
    getFilter (filterGeoJsonByProperty demoMap "id" []) "geojson-line-layer" = some none := by
  refine ⟨(filter_ops_preserve_camera demoMap "id" ["A1"]).1,
    (filter_ops_preserve_camera demoMap "id" ["A1"]).2.1,
    (filter_ops_preserve_camera demoMap "id" ["A1"]).2.2.1 (by decide) (by decide),
    ?_⟩
  have h := (filter_ops_preserve_camera demoMap "id" ["A1"]).2.2.2.1 (by decide)
    "geojson-line-layer" (by decide) (by decide)
  simpa [geojsonBaseFilter] using h

end MonopileApp





